import Mathlib

/-!
Verification of the client-side page script `script.js`: a shallow embedding
of its DOM behaviors (mobile-nav toggler, nav-link click handler,
active-link highlighter, subscription-form simulator) together with
theorems settling the claims of the specification.

Stateful DOM code is embedded as explicit state passing; a handler that can
throw a TypeError (null dereference) returns `Except String`.
-/

/-- DOM state of the navigation subsystem.

`navTogglePresent` / `mainNavPresent` record whether the lookups
`document.getElementById` for the toggle control and the panel found an
element; `mainNavOpen` records whether the class list of the panel
contains the class `open`; `ariaExpanded` is the value of the
aria-expanded attribute on the toggle control. -/
structure NavDom where
  navTogglePresent : Bool
  mainNavPresent : Bool
  mainNavOpen : Bool
  ariaExpanded : String
  deriving Repr, DecidableEq

/-- Effect of a click on the toggle control (script.js lines 11-14).

The listener is attached only when the toggle exists (optional chaining on
`navToggle` before `addEventListener`); its body toggles the class `open`
on the class list of `mainNav` and sets the aria-expanded attribute of the
toggle to `String(open)`. The body dereferences `mainNav` unconditionally,
throwing a TypeError when the panel element is absent. When the toggle is
absent no listener exists and the click does nothing. -/
def toggleClick (s : NavDom) : Except String NavDom :=
  if s.navTogglePresent then
    if s.mainNavPresent then
      let o := !s.mainNavOpen
      Except.ok { s with mainNavOpen := o, ariaExpanded := toString o }
    else
      Except.error ("TypeError")
  else
    Except.ok s

/-- Effect of a click on a navigation link (script.js lines 28-32).

The listener is attached to every anchor under the main-nav container,
unconditionally; its body asks whether the class list of `mainNav`
contains the class `open` and removes it if so, dereferencing `mainNav`,
which throws a TypeError when the panel element is absent. -/
def navLinkClick (s : NavDom) : Except String NavDom :=
  if s.mainNavPresent then
    Except.ok (if s.mainNavOpen then { s with mainNavOpen := false } else s)
  else
    Except.error ("TypeError")

/-- The two user events the navigation subsystem reacts to. -/
inductive NavEvent where
  | toggle
  | linkClick
  deriving Repr, DecidableEq

/-- Dispatch one navigation event to its handler. -/
def navStep (s : NavDom) : NavEvent → Except String NavDom
  | NavEvent.toggle => toggleClick s
  | NavEvent.linkClick => navLinkClick s

/-- Run a sequence of navigation events, stopping at the first exception. -/
def navRun (s : NavDom) : List NavEvent → Except String NavDom
  | [] => Except.ok s
  | e :: es => (navStep s e).bind (fun s2 => navRun s2 es)

/-- Initial page state: both nav elements present, panel closed (its class
list lacks the class `open`), aria-expanded reading "false" as in the host
markup. -/
def navInit : NavDom :=
  { navTogglePresent := true, mainNavPresent := true,
    mainNavOpen := false, ariaExpanded := ("false") }

/-- JS split on the slash character over a list of characters: splits at
every slash, keeping empty segments, and never returns an empty list
(splitting the empty string yields a singleton empty segment, matching
JS `split`). -/
def splitSlash : List Char → List (List Char)
  | [] => [[]]
  | c :: cs =>
    match splitSlash cs with
    | [] => [[]]
    | g :: gs => if c = '/' then [] :: g :: gs else (c :: g) :: gs

/-- JS `split` on the slash followed by `pop`: the last path segment of a
string. `split` never returns an empty array, so `pop` always yields the
last element. -/
def lastSegment (s : String) : String :=
  String.mk ((splitSlash s.data).getLastD [])

/-- A navigation link (an anchor under the main-nav container): its href
attribute (`none` when `getAttribute` returns null) and whether its class
list contains the class `active`. -/
structure NavLink where
  href : Option String
  active : Bool
  deriving Repr, DecidableEq

/-- Computation of the current page filename (script.js line 17): the last
segment of `location.pathname` after splitting on slashes, with the JS
or-default making an empty segment fall back to the home filename. -/
def currentFilename (pathname : String) : String :=
  let p := lastSegment pathname
  if p = "" then ("index.html") else p

/-- Body of the per-link highlighter pass (script.js lines 19-26): read the
href attribute with an or-default of the empty string; when the href is
the empty string the target defaults to the home filename, otherwise the
target is the href; the filename is the last slash-separated segment of
the target; add the class `active` when the filename equals the current
filename, or when the current filename is empty and the filename is the
home filename; remove the class otherwise. -/
def highlightLink (current : String) (a : NavLink) : NavLink :=
  let href := a.href.getD ("")
  let target := if href = "" then ("index.html") else href
  let filename := lastSegment target
  if filename = current ∨ (current = "" ∧ filename = "index.html") then
    { a with active := true }
  else
    { a with active := false }

/-- The filename a link resolves to: last slash-separated segment of its
target, where the target is the href unless the href is absent or empty,
in which case the target defaults to the home filename. -/
def resolvedFilename (a : NavLink) : String :=
  lastSegment (if a.href.getD ("") = "" then ("index.html") else a.href.getD (""))

/-- The page-ready highlighter pass (script.js lines 17-26) over all
navigation links, for a given value of `location.pathname`. -/
def highlightAll (pathname : String) (links : List NavLink) : List NavLink :=
  links.map (highlightLink (currentFilename pathname))

/-- Number of links whose class list contains the class `active`. -/
def activeCount (links : List NavLink) : Nat :=
  (links.filter (fun a => a.active)).length

/-- DOM state of the subscription-form subsystem.

`msgPresent`: whether the lookup for the message element found one;
`msgText`: the text content of that element.
`emailValue`: the optional-chained read of the value of the email input —
`none` when the input element is absent (the chain yields undefined),
otherwise the current value of the input. `emailDefault` is the default
value of the input (what a form reset restores it to).
`otherFields`: the remaining fields of the form as pairs of current value
and default value. `pendingClears`: absolute fire times of the timer
callbacks scheduled by the success path and not yet fired. -/
structure SubDom where
  msgPresent : Bool
  emailValue : Option String
  emailDefault : String
  msgText : String
  otherFields : List (String × String)
  pendingClears : List Nat
  deriving Repr, DecidableEq

/-- The submit handler (script.js lines 38-56), attached only when the form
element exists (optional chaining on `form`). `now` is the submission time.

Returns the new DOM state and whether `preventDefault` was called on the
event (the first statement of the handler, so always true).

The JS truthiness test on the email value fails exactly when the optional
chain gave undefined (input absent) or the value is the empty string; that
error path only writes the message (guarded by a presence check on `msg`)
and returns. The success path writes the confirmation message, resets the
form (every field back to its default value), and schedules a clear
callback 3500 time units ahead. -/
def subscribeSubmit (now : Nat) (s : SubDom) : SubDom × Bool :=
  if s.emailValue = none ∨ s.emailValue = some ("") then
    (if s.msgPresent then { s with msgText := ("Please enter a valid email.") } else s,
     true)
  else
    let s1 := if s.msgPresent then { s with msgText := ("Thanks — you are subscribed!") } else s
    let s2 := { s1 with emailValue := s1.emailValue.map (fun _ => s1.emailDefault),
                        otherFields := s1.otherFields.map
                          (fun (f : String × String) => (f.2, f.2)) }
    ({ s2 with pendingClears := s2.pendingClears ++ [now + 3500] }, true)

/-- Body of the scheduled timer callback (script.js lines 52-54): clear the
status message if the message element exists. -/
def fireClear (s : SubDom) : SubDom :=
  if s.msgPresent then { s with msgText := ("") } else s

/-- Advance time to `t`: every pending clear whose fire time has been
reached runs (each is an independent, non-cancellable timer) and is
removed from the pending list. -/
def fireDue (t : Nat) (s : SubDom) : SubDom :=
  let due := s.pendingClears.filter (fun x => decide (x ≤ t))
  let rest := s.pendingClears.filter (fun x => decide (¬ x ≤ t))
  due.foldl (fun acc _ => fireClear acc) { s with pendingClears := rest }

/-- A submission-ready state: message element present, email input present
with value `v` and empty default, no pending timers. -/
def subReady (v : String) : SubDom :=
  { msgPresent := true, emailValue := some v, emailDefault := (""),
    msgText := (""), otherFields := [], pendingClears := [] }

example : toggleClick navInit =
    Except.ok { navTogglePresent := true, mainNavPresent := true,
                mainNavOpen := true, ariaExpanded := ("true") } := rfl

example : navRun navInit [NavEvent.toggle, NavEvent.linkClick] =
    Except.ok { navTogglePresent := true, mainNavPresent := true,
                mainNavOpen := false, ariaExpanded := ("true") } := rfl

example : highlightAll ("/about.html")
    [{ href := some ("about.html"), active := false },
     { href := some ("index.html"), active := true }] =
    [{ href := some ("about.html"), active := true },
     { href := some ("index.html"), active := false }] := rfl

example : lastSegment ("/") = "" := rfl
example : currentFilename ("") = "index.html" := rfl
example : currentFilename ("/") = "index.html" := rfl

example : subscribeSubmit 0 (subReady ("a@b.com")) =
    ({ msgPresent := true, emailValue := some (""), emailDefault := (""),
       msgText := ("Thanks — you are subscribed!"), otherFields := [],
       pendingClears := [3500] }, true) := rfl

example : fireDue 3500 (subscribeSubmit 0 (subReady ("a@b.com"))).1 =
    { msgPresent := true, emailValue := some (""), emailDefault := (""),
      msgText := (""), otherFields := [], pendingClears := [] } := rfl

lemma toggleClick_present (b : Bool) (a : String) :
    toggleClick { navTogglePresent := true, mainNavPresent := true,
                  mainNavOpen := b, ariaExpanded := a } =
      Except.ok { navTogglePresent := true, mainNavPresent := true,
                  mainNavOpen := !b, ariaExpanded := toString (!b) } := by
  simp [toggleClick]

lemma navRun_replicate_toggle (n : Nat) (b : Bool) (a : String) :
    navRun { navTogglePresent := true, mainNavPresent := true,
             mainNavOpen := b, ariaExpanded := a }
        (List.replicate (n + 1) NavEvent.toggle) =
      Except.ok { navTogglePresent := true, mainNavPresent := true,
                  mainNavOpen := b.xor (decide ((n + 1) % 2 = 1)),
                  ariaExpanded := toString (b.xor (decide ((n + 1) % 2 = 1))) } := by
  induction n generalizing b a with
  | zero =>
    simp [navRun, navStep, toggleClick_present, List.replicate, Except.bind]
  | succ k ih =>
    rw [List.replicate_succ]
    have hstep : navRun { navTogglePresent := true, mainNavPresent := true,
                          mainNavOpen := b, ariaExpanded := a }
        (NavEvent.toggle :: List.replicate (k + 1) NavEvent.toggle) =
        navRun { navTogglePresent := true, mainNavPresent := true,
                 mainNavOpen := !b, ariaExpanded := toString (!b) }
          (List.replicate (k + 1) NavEvent.toggle) := by
      simp [navRun, navStep, toggleClick_present, Except.bind]
    rw [hstep, ih]
    have hpar : (!b).xor (decide ((k + 1) % 2 = 1)) =
        b.xor (decide ((k + 2) % 2 = 1)) := by
      rcases Nat.mod_two_eq_zero_or_one (k + 1) with h | h
      · have h2 : (k + 2) % 2 = 1 := by omega
        simp [h, h2]
      · have h2 : (k + 2) % 2 = 0 := by omega
        simp [h, h2]
    rw [hpar]

lemma navRun_toggle_parity (n : Nat) :
    navRun navInit (List.replicate n NavEvent.toggle) =
      Except.ok { navTogglePresent := true, mainNavPresent := true,
                  mainNavOpen := decide (n % 2 = 1),
                  ariaExpanded := toString (decide (n % 2 = 1)) } := by
  cases n with
  | zero => rfl
  | succ k =>
    have h := navRun_replicate_toggle k false ("false")
    simpa [navInit] using h

/-- C5: starting from the initial closed state, after exactly `n`
toggle-control activations the panel is open iff `n` is odd, and after
every individual activation (the state after `k` activations, `1 ≤ k ≤ n`)
the aria-expanded attribute string equals the string form of the open
state. -/
theorem C5_toggle_parity (n k : Nat) (hk1 : 1 ≤ k) (hkn : k ≤ n) :
    (navRun navInit (List.replicate n NavEvent.toggle)).map NavDom.mainNavOpen
      = Except.ok (decide (n % 2 = 1)) ∧
    (navRun navInit (List.replicate k NavEvent.toggle)).map
        (fun s => (s.ariaExpanded, s.mainNavOpen))
      = Except.ok (toString (decide (k % 2 = 1)), decide (k % 2 = 1)) := by
  rw [navRun_toggle_parity n, navRun_toggle_parity k]
  exact ⟨rfl, rfl⟩

theorem C5_toggle_parity_witness :
    (navRun navInit (List.replicate 3 NavEvent.toggle)).map NavDom.mainNavOpen
      = Except.ok (decide (3 % 2 = 1)) ∧
    (navRun navInit (List.replicate 1 NavEvent.toggle)).map
        (fun s => (s.ariaExpanded, s.mainNavOpen))
      = Except.ok (toString (decide (1 % 2 = 1)), decide (1 % 2 = 1)) :=
  C5_toggle_parity 3 1 (by decide) (by decide)

/-- C1 counterexample: from the initial state (panel closed, aria-expanded
reading "false"), a toggle activation followed by a navigation-link click
leaves the panel closed but the aria-expanded attribute still reading
"true": after the link-click handler completes the attribute does not
equal the string form of the open state, refuting the claimed invariant
over every operation. -/
theorem C1_counterexample :
    navRun navInit [NavEvent.toggle, NavEvent.linkClick] =
      Except.ok { navTogglePresent := true, mainNavPresent := true,
                  mainNavOpen := false, ariaExpanded := ("true") } ∧
    ("true" : String) ≠ toString false := by
  exact ⟨rfl, by decide⟩

/-- C1 amended: the invariant holds after every completed toggle-control
activation (the handler writes aria-expanded to the string form of the new
open state), but a navigation-link click never updates aria-expanded: it
leaves the attribute unchanged while forcing the panel closed, so a link
click on an open panel breaks the invariant until the next toggle
activation. -/
theorem C1_aria_amended (s s2 : NavDom) (ht : s.navTogglePresent = true) :
    (toggleClick s = Except.ok s2 →
      s2.ariaExpanded = toString s2.mainNavOpen) ∧
    (navLinkClick s = Except.ok s2 →
      s2.ariaExpanded = s.ariaExpanded ∧ s2.mainNavOpen = false) := by
  constructor
  · intro h
    by_cases hm : s.mainNavPresent = true
    · simp [toggleClick, ht, hm] at h
      rw [← h]
    · simp [toggleClick, ht, hm] at h
  · intro h
    by_cases hm : s.mainNavPresent = true
    · simp [navLinkClick, hm] at h
      by_cases ho : s.mainNavOpen = true
      · simp [ho] at h
        rw [← h]
        exact ⟨rfl, rfl⟩
      · simp [Bool.not_eq_true] at ho
        simp [ho] at h
        rw [← h]
        exact ⟨rfl, ho⟩
    · simp [navLinkClick, hm] at h

theorem C1_aria_amended_witness :
    (toggleClick navInit =
        Except.ok { navTogglePresent := true, mainNavPresent := true,
                    mainNavOpen := true, ariaExpanded := ("true") } →
      ({ navTogglePresent := true, mainNavPresent := true,
         mainNavOpen := true, ariaExpanded := ("true") } : NavDom).ariaExpanded =
        toString ({ navTogglePresent := true, mainNavPresent := true,
                    mainNavOpen := true, ariaExpanded := ("true") } : NavDom).mainNavOpen) ∧
    (navLinkClick navInit =
        Except.ok { navTogglePresent := true, mainNavPresent := true,
                    mainNavOpen := true, ariaExpanded := ("true") } →
      ({ navTogglePresent := true, mainNavPresent := true,
         mainNavOpen := true, ariaExpanded := ("true") } : NavDom).ariaExpanded =
          navInit.ariaExpanded ∧
        ({ navTogglePresent := true, mainNavPresent := true,
           mainNavOpen := true, ariaExpanded := ("true") } : NavDom).mainNavOpen = false) :=
  C1_aria_amended navInit
    { navTogglePresent := true, mainNavPresent := true,
      mainNavOpen := true, ariaExpanded := ("true") } rfl

/-- C2 counterexample: on a host page where the panel element is absent but
the toggle control is present, activating the toggle throws a TypeError
(the handler body dereferences the null panel), and clicking a navigation
link likewise throws, refuting the claim that the absent panel makes these
events exception-free no-ops. -/
theorem C2_counterexample :
    toggleClick { navTogglePresent := true, mainNavPresent := false,
                  mainNavOpen := false, ariaExpanded := ("false") } =
      Except.error ("TypeError") ∧
    navLinkClick { navTogglePresent := true, mainNavPresent := false,
                   mainNavOpen := false, ariaExpanded := ("false") } =
      Except.error ("TypeError") :=
  ⟨rfl, rfl⟩

/-- C2 amended: when the panel element is absent, a toggle activation is a
no-op only when the toggle control is also absent (no listener attached);
when the toggle control is present, activating it throws a TypeError, and
clicking a navigation link throws a TypeError. In the throwing cases the
handler aborts before any mutation, so no DOM state changes. -/
theorem C2_absent_panel_amended (s : NavDom) (h : s.mainNavPresent = false) :
    (s.navTogglePresent = false → toggleClick s = Except.ok s) ∧
    (s.navTogglePresent = true → toggleClick s = Except.error ("TypeError")) ∧
    navLinkClick s = Except.error ("TypeError") := by
  refine ⟨fun ht => ?_, fun ht => ?_, ?_⟩
  · simp [toggleClick, ht]
  · simp [toggleClick, ht, h]
  · simp [navLinkClick, h]

lemma highlightLink_eq (current : String) (a : NavLink) :
    highlightLink current a =
      { a with active :=
          decide (resolvedFilename a = current ∨
                  (current = "" ∧ resolvedFilename a = "index.html")) } := by
  by_cases hc : resolvedFilename a = current ∨
      (current = "" ∧ resolvedFilename a = "index.html")
  · simp only [highlightLink, resolvedFilename] at *
    rw [if_pos hc, decide_eq_true hc]
  · simp only [highlightLink, resolvedFilename] at *
    rw [if_neg hc, decide_eq_false hc]

lemma resolvedFilename_set_active (a : NavLink) (b : Bool) :
    resolvedFilename { a with active := b } = resolvedFilename a := rfl

lemma currentFilename_ne_empty (p : String) : currentFilename p ≠ "" := by
  show (if lastSegment p = "" then ("index.html") else lastSegment p) ≠ ""
  by_cases h : lastSegment p = ""
  · rw [if_pos h]
    decide
  · rw [if_neg h]
    exact h

lemma activeCount_highlightAll (p : String) (links : List NavLink) :
    activeCount (highlightAll p links) =
      (links.map resolvedFilename).count (currentFilename p) := by
  induction links with
  | nil => rfl
  | cons a as ih =>
    have hcur := currentFilename_ne_empty p
    by_cases hres : resolvedFilename a = currentFilename p
    · simp [highlightAll, activeCount, highlightLink_eq, hres, List.count_cons,
            hcur] at *
      omega
    · simp [highlightAll, activeCount, highlightLink_eq, hres, List.count_cons,
            hcur] at *
      omega

/-- C3 counterexample: two navigation links resolving to the same filename
as the current page both receive the class marking the active link, so the
number of active links can be two, refuting the zero-or-one invariant for
arbitrary sets of links. -/
theorem C3_counterexample :
    activeCount (highlightAll ("/a.html")
      [{ href := some ("a.html"), active := false },
       { href := some ("sub/a.html"), active := false }]) = 2 := rfl

/-- C3 amended: whenever the resolved target filenames of the navigation
links are pairwise distinct (as on a page whose links point to distinct
files), at most one link carries the active marker after the page-ready
evaluation; with duplicate resolved filenames every duplicate matching the
current page is marked. -/
theorem C3_active_amended (pathname : String) (links : List NavLink)
    (h : (links.map resolvedFilename).Nodup) :
    activeCount (highlightAll pathname links) ≤ 1 := by
  rw [activeCount_highlightAll]
  exact List.nodup_iff_count_le_one.mp h _

theorem C3_active_amended_witness :
    activeCount (highlightAll ("/a.html")
      [{ href := some ("a.html"), active := false },
       { href := some ("b.html"), active := true }]) ≤ 1 :=
  C3_active_amended ("/a.html")
    [{ href := some ("a.html"), active := false },
     { href := some ("b.html"), active := true }] (by decide)

/-- C4: after the page-ready evaluation for a given current path, a link
carries the active marker iff its resolved target filename equals the
current filename (last path segment of the path, defaulting to the home
filename when empty); non-matching links have the marker removed even if
they carried it before, and the evaluation is idempotent. -/
theorem C4_highlight_iff (pathname : String) (links : List NavLink) :
    (∀ a ∈ highlightAll pathname links,
        a.active = true ↔ resolvedFilename a = currentFilename pathname) ∧
    highlightAll pathname (highlightAll pathname links) =
      highlightAll pathname links := by
  have hcur := currentFilename_ne_empty pathname
  constructor
  · intro a ha
    rcases List.mem_map.mp ha with ⟨b, -, rfl⟩
    have h1 : (highlightLink (currentFilename pathname) b).active =
        decide (resolvedFilename b = currentFilename pathname ∨
                (currentFilename pathname = "" ∧ resolvedFilename b = "index.html")) := by
      rw [highlightLink_eq]
    have h2 : resolvedFilename (highlightLink (currentFilename pathname) b) =
        resolvedFilename b := by
      rw [highlightLink_eq, resolvedFilename_set_active]
    rw [h1, h2, decide_eq_true_eq]
    constructor
    · rintro (h | ⟨h, -⟩)
      · exact h
      · exact absurd h hcur
    · exact fun h => Or.inl h
  · unfold highlightAll
    rw [List.map_map]
    apply List.map_congr_left
    intro a _
    show highlightLink (currentFilename pathname) (highlightLink (currentFilename pathname) a) =
      highlightLink (currentFilename pathname) a
    simp only [highlightLink_eq, resolvedFilename_set_active]

theorem C4_highlight_iff_witness :
    (({ href := some ("about.html"), active := true } : NavLink).active = true ↔
      resolvedFilename { href := some ("about.html"), active := true } =
        currentFilename ("/about.html")) ∧
    highlightAll ("/about.html")
        (highlightAll ("/about.html") [{ href := some ("about.html"), active := false }]) =
      highlightAll ("/about.html") [{ href := some ("about.html"), active := false }] := by
  have h := C4_highlight_iff ("/about.html")
    [{ href := some ("about.html"), active := false }]
  refine ⟨h.1 { href := some ("about.html"), active := true } ?_, h.2⟩
  rw [show highlightAll ("/about.html")
        [{ href := some ("about.html"), active := false }] =
      [{ href := some ("about.html"), active := true }] from rfl]
  exact List.mem_singleton_self _

/-- C9: a link whose href is non-empty but whose last path segment is empty
(an href ending in a slash) resolves to the empty filename — the home
default applies only to an entirely empty or absent href; the computed
current filename is never empty, so such a link is never marked active and
the branch comparing the current filename against the empty string is
unreachable. -/
theorem C9_trailing_slash (p : String) (a : NavLink) (href : String)
    (h1 : a.href = some href) (h2 : href ≠ "") (h3 : lastSegment href = "") :
    resolvedFilename a = "" ∧ currentFilename p ≠ "" ∧
    (highlightLink (currentFilename p) a).active = false := by
  have hres : resolvedFilename a = "" := by
    unfold resolvedFilename
    rw [h1]
    simp [h2, h3]
  have hcur := currentFilename_ne_empty p
  refine ⟨hres, hcur, ?_⟩
  have hact : (highlightLink (currentFilename p) a).active =
      decide (resolvedFilename a = currentFilename p ∨
              (currentFilename p = "" ∧ resolvedFilename a = "index.html")) := by
    rw [highlightLink_eq]
  rw [hact, hres]
  apply decide_eq_false
  rintro (h | ⟨h, -⟩)
  · exact hcur h.symm
  · exact hcur h

theorem C9_trailing_slash_witness :
    resolvedFilename { href := some ("/"), active := false } = "" ∧
    currentFilename ("/index.html") ≠ "" ∧
    (highlightLink (currentFilename ("/index.html"))
      { href := some ("/"), active := false }).active = false :=
  C9_trailing_slash ("/index.html") { href := some ("/"), active := false } ("/")
    rfl (by decide) rfl

/-- C6: submitting the form with an empty email value suppresses the
default submission, sets the status message to exactly the error text,
leaves every field value and the pending-timer list unchanged (no reset,
no scheduled clear). -/
theorem C6_empty_email (now : Nat) (s : SubDom)
    (he : s.emailValue = some ("")) (hm : s.msgPresent = true) :
    subscribeSubmit now s =
      ({ s with msgText := ("Please enter a valid email.") }, true) := by
  simp [subscribeSubmit, he, hm]

theorem C6_empty_email_witness :
    subscribeSubmit 0 (subReady ("")) =
      ({ subReady ("") with msgText := ("Please enter a valid email.") }, true) :=
  C6_empty_email 0 (subReady ("")) rfl rfl

/-- C7: submitting the form with a non-empty email value suppresses the
default submission, sets the status message to exactly the confirmation
text, resets every field to its default value, and schedules one clear
3500 time units ahead; with no further submission, once that time is
reached the message is cleared to the empty string and nothing remains
pending. -/
theorem C7_success (now : Nat) (s : SubDom) (v : String)
    (hv : s.emailValue = some v) (hne : v ≠ "") (hm : s.msgPresent = true)
    (hp : s.pendingClears = []) :
    subscribeSubmit now s =
      ({ s with msgText := ("Thanks — you are subscribed!"),
                emailValue := some s.emailDefault,
                otherFields := s.otherFields.map
                  (fun (f : String × String) => (f.2, f.2)),
                pendingClears := [now + 3500] }, true) ∧
    (fireDue (now + 3500) (subscribeSubmit now s).1).msgText = "" ∧
    (fireDue (now + 3500) (subscribeSubmit now s).1).pendingClears = [] := by
  have hcond : ¬ (s.emailValue = none ∨ s.emailValue = some ("")) := by
    rw [hv]
    rintro (h | h)
    · exact Option.noConfusion h
    · exact hne (Option.some.inj h)
  have heq : subscribeSubmit now s =
      ({ s with msgText := ("Thanks — you are subscribed!"),
                emailValue := some s.emailDefault,
                otherFields := s.otherFields.map
                  (fun (f : String × String) => (f.2, f.2)),
                pendingClears := [now + 3500] }, true) := by
    simp [subscribeSubmit, hcond, hm, hv, hp, hne]
  refine ⟨heq, ?_, ?_⟩ <;> rw [heq] <;> simp [fireDue, fireClear, hm]

theorem C7_success_witness :
    subscribeSubmit 0 (subReady ("a@b.com")) =
      ({ msgPresent := true, emailValue := some (""), emailDefault := (""),
         msgText := ("Thanks — you are subscribed!"), otherFields := [],
         pendingClears := [0 + 3500] }, true) ∧
    (fireDue (0 + 3500) (subscribeSubmit 0 (subReady ("a@b.com"))).1).msgText = "" ∧
    (fireDue (0 + 3500) (subscribeSubmit 0 (subReady ("a@b.com"))).1).pendingClears = [] :=
  C7_success 0 (subReady ("a@b.com")) ("a@b.com") rfl (by decide) rfl rfl

/-- C8: for two successful submissions at times `t1 < t2 < t1 + 3500`
(the user retypes a non-empty email between them), each submission appends
its own independent clear timer; between the two submissions the status
message reads the success text of the most recent submission; and the
first pending clear still fires at `t1 + 3500`, blanking the message even
though the second, newer message is displayed, leaving only the second
timer pending. -/
theorem C8_double_submit (t1 t2 : Nat) (s : SubDom) (v w : String)
    (hv : s.emailValue = some v) (hvne : v ≠ "") (hwne : w ≠ "")
    (hm : s.msgPresent = true) (hp : s.pendingClears = [])
    (h12 : t1 < t2) (hlt : t2 < t1 + 3500) :
    (subscribeSubmit t1 s).1.msgText = "Thanks — you are subscribed!" ∧
    (fireDue t2 { (subscribeSubmit t1 s).1 with emailValue := some w }).msgText =
      "Thanks — you are subscribed!" ∧
    (fireDue t2 { (subscribeSubmit t1 s).1 with emailValue := some w }).pendingClears =
      [t1 + 3500] ∧
    (subscribeSubmit t2
        (fireDue t2 { (subscribeSubmit t1 s).1 with emailValue := some w })).1.msgText =
      "Thanks — you are subscribed!" ∧
    (subscribeSubmit t2
        (fireDue t2 { (subscribeSubmit t1 s).1 with emailValue := some w })).1.pendingClears =
      [t1 + 3500, t2 + 3500] ∧
    (fireDue (t1 + 3500) (subscribeSubmit t2
        (fireDue t2 { (subscribeSubmit t1 s).1 with emailValue := some w })).1).msgText =
      "" ∧
    (fireDue (t1 + 3500) (subscribeSubmit t2
        (fireDue t2 { (subscribeSubmit t1 s).1 with emailValue := some w })).1).pendingClears =
      [t2 + 3500] := by
  have hcond : ¬ (s.emailValue = none ∨ s.emailValue = some ("")) := by
    rw [hv]
    rintro (h | h)
    · exact Option.noConfusion h
    · exact hvne (Option.some.inj h)
  have hf1 : ¬ (t1 + 3500 ≤ t2) := by omega
  have hf2 : ¬ (t2 + 3500 ≤ t1 + 3500) := by omega
  have hg2 : t1 + 3500 < t2 + 3500 := by omega
  refine ⟨?_, ?_, ?_, ?_, ?_, ?_, ?_⟩ <;>
    simp [subscribeSubmit, fireDue, fireClear, hcond, hv, hvne, hm, hp, hwne,
          hf1, hf2, hlt, hg2, h12]

theorem C8_double_submit_witness :
    (subscribeSubmit 0 (subReady ("a@b.com"))).1.msgText =
      "Thanks — you are subscribed!" ∧
    (fireDue (0 + 3500) (subscribeSubmit 1
        (fireDue 1 { (subscribeSubmit 0 (subReady ("a@b.com"))).1 with
                     emailValue := some ("b@c.de") })).1).msgText = "" := by
  have h := C8_double_submit 0 1 (subReady ("a@b.com")) ("a@b.com") ("b@c.de")
    rfl (by decide) (by decide) rfl rfl (by decide) (by decide)
  exact ⟨h.1, h.2.2.2.2.2.1⟩

/-- C10: when the email input element is absent (the optional chain yields
undefined), every submission takes the error path: the default submission
is still suppressed, the status message is set to the error text when the
message element exists (and nothing changes when it does not), the fields
of the form are never reset, and no clear timer is ever scheduled,
regardless of the field values in the form. -/
theorem C10_missing_email_input (now : Nat) (s : SubDom)
    (h : s.emailValue = none) :
    (subscribeSubmit now s).2 = true ∧
    (s.msgPresent = true →
      (subscribeSubmit now s).1.msgText = "Please enter a valid email.") ∧
    (s.msgPresent = false → (subscribeSubmit now s).1 = s) ∧
    (subscribeSubmit now s).1.otherFields = s.otherFields ∧
    (subscribeSubmit now s).1.emailValue = s.emailValue ∧
    (subscribeSubmit now s).1.pendingClears = s.pendingClears := by
  cases hmp : s.msgPresent <;> simp [subscribeSubmit, h, hmp]

def subNoEmail : SubDom :=
  { msgPresent := true, emailValue := none, emailDefault := (""),
    msgText := ("hello"), otherFields := [(("x"), ("y"))],
    pendingClears := [7] }

theorem C10_missing_email_input_witness :
    (subscribeSubmit 5 subNoEmail).2 = true ∧
    (subNoEmail.msgPresent = true →
      (subscribeSubmit 5 subNoEmail).1.msgText = "Please enter a valid email.") ∧
    (subNoEmail.msgPresent = false →
      (subscribeSubmit 5 subNoEmail).1 = subNoEmail) ∧
    (subscribeSubmit 5 subNoEmail).1.otherFields = subNoEmail.otherFields ∧
    (subscribeSubmit 5 subNoEmail).1.emailValue = subNoEmail.emailValue ∧
    (subscribeSubmit 5 subNoEmail).1.pendingClears = subNoEmail.pendingClears :=
  C10_missing_email_input 5 subNoEmail rfl

theorem C2_absent_panel_amended_witness :
    (({ navTogglePresent := true, mainNavPresent := false,
        mainNavOpen := false, ariaExpanded := ("false") } : NavDom).navTogglePresent = false →
      toggleClick { navTogglePresent := true, mainNavPresent := false,
                    mainNavOpen := false, ariaExpanded := ("false") } =
        Except.ok { navTogglePresent := true, mainNavPresent := false,
                    mainNavOpen := false, ariaExpanded := ("false") }) ∧
    (({ navTogglePresent := true, mainNavPresent := false,
        mainNavOpen := false, ariaExpanded := ("false") } : NavDom).navTogglePresent = true →
      toggleClick { navTogglePresent := true, mainNavPresent := false,
                    mainNavOpen := false, ariaExpanded := ("false") } =
        Except.error ("TypeError")) ∧
    navLinkClick { navTogglePresent := true, mainNavPresent := false,
                   mainNavOpen := false, ariaExpanded := ("false") } =
      Except.error ("TypeError") :=
  C2_absent_panel_amended
    { navTogglePresent := true, mainNavPresent := false,
      mainNavOpen := false, ariaExpanded := ("false") } rfl
